import Mathlib

/-!
Verification development for the sea-query SQL builder fragment.

The repository sources available are `src/query/update.rs`, `src/table/alter.rs`
and the test suites `tests/mysql/query.rs`, `tests/sqlite/table.rs`.  The
statement structs and their builder methods are embedded directly from the
Rust sources.  The rendering engine (the `backend` module, `Value`,
`SimpleExpr`, the condition tree and the `QueryBuilder` trait) is not among
the provided sources, so those parts are modelled from the specification
(spec sections 3, 4.1, 4.3, 4.4, 4.5, 4.7, 4.9, 4.10) and cross-checked
against the expected strings of the in-repo tests.

Rendering is modelled as producing a list of `Chunk`s: literal SQL text
interleaved with value-emission points.  As in the code, the mode (inline
text for `to_string`, placeholder plus collector for `build_collect`) is
applied at each value emission point.
-/

namespace SeaQuery

/-- Modelled from the spec (section 4.10): the three dialect backends;
the concrete backend structs are not among the provided sources. -/
inductive Backend where
  | mysql
  | postgres
  | sqlite
deriving DecidableEq

/-- Modelled from the spec (section 3, "Value"): the closed sum of SQL literal
scalars, each a nullable carrier.  `value.rs` is not among the provided
sources.  Float carriers are represented by their decimal text form, since
the spec treats float formatting as "sufficient precision for round-trip"
and no claim depends on the digits themselves. -/
inductive Value where
  | bool (x : Option Bool)
  | tinyInt (x : Option Int)
  | smallInt (x : Option Int)
  | int (x : Option Int)
  | bigInt (x : Option Int)
  | tinyUnsigned (x : Option Nat)
  | smallUnsigned (x : Option Nat)
  | unsigned (x : Option Nat)
  | bigUnsigned (x : Option Nat)
  | float (x : Option String)
  | double (x : Option String)
  | str (x : Option String)
  | bytes (x : Option (List Nat))
deriving DecidableEq

/-- The single-quote character, kept out of literal strings. -/
def sq : String := String.singleton (Char.ofNat 39)

/-- Double every single quote in a character list (SQL string escaping). -/
def escChars : List Char → List Char
  | [] => []
  | c :: cs =>
      if c = Char.ofNat 39 then c :: c :: escChars cs else c :: escChars cs

/-- Modelled from the spec (section 4.1): strings are single-quoted with
internal quotes doubled. -/
def escapeStr (s : String) : String := ⟨escChars s.data⟩

/-- Modelled from the spec (section 4.10): boolean literal text per dialect. -/
def boolLit (b : Backend) (x : Bool) : String :=
  match b with
  | .postgres => if x then "TRUE" else "FALSE"
  | _ => if x then "1" else "0"

def hexDigit (n : Nat) : Char :=
  if n < 10 then Char.ofNat (48 + n) else Char.ofNat (55 + n)

def byteHex (n : Nat) : String :=
  String.singleton (hexDigit (n / 16 % 16)) ++ String.singleton (hexDigit (n % 16))

def bytesHex : List Nat → String
  | [] => ""
  | b :: bs => byteHex b ++ bytesHex bs

/-- Modelled from the spec (section 4.1, inline-format): the dialect-aware
inline SQL text of a value; `NULL` when the carrier is empty. -/
def inlineOf (b : Backend) (v : Value) : String :=
  match v with
  | .bool none | .tinyInt none | .smallInt none | .int none | .bigInt none
  | .tinyUnsigned none | .smallUnsigned none | .unsigned none
  | .bigUnsigned none | .float none | .double none | .str none
  | .bytes none => "NULL"
  | .bool (some x) => boolLit b x
  | .tinyInt (some i) | .smallInt (some i) | .int (some i) | .bigInt (some i) =>
      toString i
  | .tinyUnsigned (some n) | .smallUnsigned (some n) | .unsigned (some n)
  | .bigUnsigned (some n) => toString n
  | .float (some t) | .double (some t) => t
  | .str (some s) => sq ++ escapeStr s ++ sq
  | .bytes (some bs) =>
      match b with
      | .postgres => sq ++ "\\x" ++ bytesHex bs ++ sq
      | _ => "X" ++ sq ++ bytesHex bs ++ sq

/-- Modelled from the spec (section 4.1, placeholder-emit): the dialect
placeholder marker for the n-th collected value (1-based). -/
def marker (b : Backend) (n : Nat) : String :=
  match b with
  | .postgres => "$" ++ toString n
  | _ => "?"

/-- Modelled from the spec (section 4.10): identifier quoting per dialect. -/
def quol (b : Backend) (s : String) : String :=
  match b with
  | .mysql => "`" ++ s ++ "`"
  | _ => "\"" ++ s ++ "\""

/-- A rendering emission: either literal SQL text or a value emission point.
The rendering mode of the code (inline for `to_string`, placeholder plus
collector for `build_collect`) is applied at each `val` chunk. -/
inductive Chunk where
  | str (s : String)
  | val (v : Value)
deriving DecidableEq

/-- The ordered values emitted by a chunk list. -/
def chunkValues : List Chunk → List Value
  | [] => []
  | .str _ :: cs => chunkValues cs
  | .val v :: cs => v :: chunkValues cs

/-- Inline rendering mode: every value is written in its inline SQL form
(this is `to_string`). -/
def inlineRender (b : Backend) : List Chunk → String
  | [] => ""
  | .str s :: cs => s ++ inlineRender b cs
  | .val v :: cs => inlineOf b v ++ inlineRender b cs

/-- Collect rendering mode: every value is pushed to the collector and the
dialect marker for the new collector length is written (this is
`build_collect`); `n` is the number of values already collected. -/
def collectRender (b : Backend) : List Chunk → Nat → String × List Value
  | [], _ => ("", [])
  | .str s :: cs, n =>
      let r := collectRender b cs n
      (s ++ r.1, r.2)
  | .val v :: cs, n =>
      let r := collectRender b cs (n + 1)
      (marker b (n + 1) ++ r.1, v :: r.2)

/-- Binary operators of the expression AST (spec section 3, `BinOper`). -/
inductive BinOper where
  | andOp | orOp
  | eqOp | neOp | ltOp | gtOp | lteOp | gteOp
  | likeOp | notLikeOp
  | addOp | subOp | mulOp | divOp
deriving DecidableEq

def binOperStr : BinOper → String
  | .andOp => "AND"
  | .orOp => "OR"
  | .eqOp => "="
  | .neOp => "<>"
  | .ltOp => "<"
  | .gtOp => ">"
  | .lteOp => "<="
  | .gteOp => ">="
  | .likeOp => "LIKE"
  | .notLikeOp => "NOT LIKE"
  | .addOp => "+"
  | .subOp => "-"
  | .mulOp => "*"
  | .divOp => "/"

def isArithOp : BinOper → Bool
  | .addOp | .subOp | .mulOp | .divOp => true
  | _ => false

def isLogicalOp : BinOper → Bool
  | .andOp | .orOp => true
  | _ => false

/-- Modelled from the spec (section 3, `SimpleExpr`): the expression AST.
Modelled fragment: column references, literal values, binary and unary
operations, `BETWEEN`, fixed-arity function calls, `IN` over a value list,
and raw custom SQL.  Sub-queries, tuples-of-expressions and windowing are
outside the modelled fragment (no claim exercises them). -/
inductive SimpleExpr where
  | col (t : Option String) (c : String)
  | val (v : Value)
  | bin (l : SimpleExpr) (op : BinOper) (r : SimpleExpr)
  | isNull (e : SimpleExpr)
  | isNotNull (e : SimpleExpr)
  | notExpr (e : SimpleExpr)
  | between (e lo hi : SimpleExpr)
  | notBetween (e lo hi : SimpleExpr)
  | funcCall1 (f : String) (e : SimpleExpr)
  | funcCall2 (f : String) (e1 e2 : SimpleExpr)
  | inValues (e : SimpleExpr) (vs : List Value)
  | notInValues (e : SimpleExpr) (vs : List Value)
  | custom (s : String)
deriving DecidableEq

/-- Whether a binary operand is parenthesized under the given parent
operator.  Modelled from the spec (section 4.3) and fixed against the
expected strings of tests select_10, select_22, select_25, select_26,
select_30, select_31: logical parents parenthesize any binary operand,
arithmetic parents parenthesize binary operands with a different operator,
comparison parents parenthesize nothing. -/
def binOperandWrap (parent : BinOper) : SimpleExpr → Bool
  | .bin _ op2 _ =>
      if isLogicalOp parent then true
      else if isArithOp parent then decide (op2 ≠ parent)
      else false
  | .between _ _ _ | .notBetween _ _ _ => isLogicalOp parent
  | _ => false

def wrapIf (w : Bool) (cs : List Chunk) : List Chunk :=
  if w then [.str "("] ++ cs ++ [.str ")"] else cs

def valListChunks : List Value → List Chunk
  | [] => []
  | [v] => [.val v]
  | v :: vs => [.val v, .str ", "] ++ valListChunks vs

/-- Modelled from the spec (section 4.3): recursive-descent rendering of an
expression to chunks. -/
def exprChunks (b : Backend) : SimpleExpr → List Chunk
  | .col none c => [.str (quol b c)]
  | .col (some t) c => [.str (quol b t ++ "." ++ quol b c)]
  | .val v => [.val v]
  | .bin l op r =>
      wrapIf (binOperandWrap op l) (exprChunks b l)
        ++ [.str (" " ++ binOperStr op ++ " ")]
        ++ wrapIf (binOperandWrap op r) (exprChunks b r)
  | .isNull e => exprChunks b e ++ [.str " IS NULL"]
  | .isNotNull e => exprChunks b e ++ [.str " IS NOT NULL"]
  | .notExpr e => [.str "NOT "] ++ exprChunks b e
  | .between e lo hi =>
      exprChunks b e ++ [.str " BETWEEN "] ++ exprChunks b lo
        ++ [.str " AND "] ++ exprChunks b hi
  | .notBetween e lo hi =>
      exprChunks b e ++ [.str " NOT BETWEEN "] ++ exprChunks b lo
        ++ [.str " AND "] ++ exprChunks b hi
  | .funcCall1 f e => [.str (f ++ "(")] ++ exprChunks b e ++ [.str ")"]
  | .funcCall2 f e1 e2 =>
      [.str (f ++ "(")] ++ exprChunks b e1 ++ [.str ", "]
        ++ exprChunks b e2 ++ [.str ")"]
  | .inValues e vs => exprChunks b e ++ [.str " IN ("] ++ valListChunks vs ++ [.str ")"]
  | .notInValues e vs =>
      exprChunks b e ++ [.str " NOT IN ("] ++ valListChunks vs ++ [.str ")"]
  | .custom s => [.str s]

/-- ALL (AND-joined) or ANY (OR-joined), the two internal node kinds of the
condition tree (spec section 3, "Condition tree"). -/
inductive CondType where
  | all
  | any
deriving DecidableEq

/-- Modelled from the spec (section 3, "Condition tree"): the ordered child
list of a condition node; children are leaf expressions or nested condition
nodes (a nested node carries its own kind, negation flag and children).
The list is fused into the inductive so that all recursion is structural. -/
inductive CndT where
  | nil
  | consExpr (e : SimpleExpr) (rest : CndT)
  | consNode (t : CondType) (neg : Bool) (children : CndT) (rest : CndT)
deriving DecidableEq

/-- Modelled from the spec (section 3, "Condition tree"): a condition node —
kind, negation flag, ordered children. -/
structure Cnd where
  ctype : CondType
  negated : Bool
  children : CndT
deriving DecidableEq

/-- Emptiness of a child list: every entry is a condition node all of whose
descendants are themselves empty; a leaf expression is never empty (spec
section 3: "an empty ALL/ANY node contributes no SQL", emptiness propagates
upward). -/
def allEmptyT : CndT → Bool
  | .nil => true
  | .consExpr _ _ => false
  | .consNode _ _ ch rest => allEmptyT ch && allEmptyT rest

/-- Number of non-empty entries of a child list. -/
def countNonEmpty : CndT → Nat
  | .nil => 0
  | .consExpr _ rest => countNonEmpty rest + 1
  | .consNode _ _ ch rest =>
      (if allEmptyT ch then 0 else 1) + countNonEmpty rest

def glueStr : CondType → String
  | .all => " AND "
  | .any => " OR "

/-- Whether a leaf expression is parenthesized when it sits beside siblings
in a chain or condition node.  Modelled on the tests (select_18, select_22,
select_34a, select_38): a binary expression whose right operand is itself
binary, and BETWEEN forms (which the code builds as binary-of-binary),
are wrapped; other leaves are not. -/
def leafNeedsWrap : SimpleExpr → Bool
  | .bin _ _ (.bin _ _ _) => true
  | .between _ _ _ => true
  | .notBetween _ _ _ => true
  | _ => false

def parenChunks (cs : List Chunk) : List Chunk :=
  [.str "("] ++ cs ++ [.str ")"]

/-- Modelled from the spec (section 4.4): render the children of a condition
node.  Empty children are skipped; rendered children are joined with the
glue of the node; when the node has more than one non-empty child (`multi`),
nested condition children are parenthesized and leaf children are
parenthesized per `leafNeedsWrap`; a negated non-empty nested node is
wrapped in `NOT ( ... )`. -/
def walkItems (b : Backend) (glue : String) (multi : Bool) :
    Bool → CndT → List Chunk
  | _, .nil => []
  | first, .consExpr e rest =>
      (if first then [] else [Chunk.str glue])
        ++ (if multi && leafNeedsWrap e then parenChunks (exprChunks b e)
            else exprChunks b e)
        ++ walkItems b glue multi false rest
  | first, .consNode t n ch rest =>
      if allEmptyT ch then walkItems b glue multi first rest
      else
        let inner := walkItems b (glueStr t) (decide (1 < countNonEmpty ch)) true ch
        let inner := if n then [Chunk.str "NOT ("] ++ inner ++ [Chunk.str ")"] else inner
        (if first then [] else [Chunk.str glue])
          ++ (if multi then parenChunks inner else inner)
          ++ walkItems b glue multi false rest

/-- Modelled from the spec (section 4.4): render a non-empty condition node;
the negated flag wraps the whole result in `NOT ( ... )`. -/
def cndChunks (b : Backend) (c : Cnd) : List Chunk :=
  let body := walkItems b (glueStr c.ctype) (decide (1 < countNonEmpty c.children)) true c.children
  if c.negated then [Chunk.str "NOT ("] ++ body ++ [Chunk.str ")"] else body

/-- The two legacy linear chain operations (`and_where` / `or_where`),
as used by `ConditionalStatement::and_or_where` in `src/query/update.rs`. -/
inductive LogicalChainOper where
  | andOper (e : SimpleExpr)
  | orOper (e : SimpleExpr)
deriving DecidableEq

/-- The operator kind of a chain entry. -/
inductive ChainKind where
  | andK
  | orK
deriving DecidableEq

def chainKind : LogicalChainOper → ChainKind
  | .andOper _ => .andK
  | .orOper _ => .orK

def chainExpr : LogicalChainOper → SimpleExpr
  | .andOper e => e
  | .orOper e => e

def chainOperStr : LogicalChainOper → String
  | .andOper _ => "AND"
  | .orOper _ => "OR"

/-- All entries of a chain use a single operator kind.  Modelled from the
spec (section 3: `and_where`/`or_where` "may be freely mixed only if all
operators collapse to one associativity") and the panic tests select_29 and
select_34b. -/
def sameKindAll : List LogicalChainOper → Bool
  | [] => true
  | c :: cs => cs.all (fun d => chainKind d = chainKind c)

/-- One rendered chain entry: its own operator text is written before it
(except for the first entry), and it is parenthesized when the chain has
more than one entry and the leaf needs wrapping. -/
def chainItemChunks (b : Backend) (multi : Bool) (withOper : Bool)
    (c : LogicalChainOper) : List Chunk :=
  (if withOper then [Chunk.str (" " ++ chainOperStr c ++ " ")] else [])
    ++ (if multi && leafNeedsWrap (chainExpr c) then parenChunks (exprChunks b (chainExpr c))
        else exprChunks b (chainExpr c))

def chainRestChunks (b : Backend) (multi : Bool) : List LogicalChainOper → List Chunk
  | [] => []
  | c :: cs => chainItemChunks b multi true c ++ chainRestChunks b multi cs

/-- Left-associative rendering of a whole chain: the first entry without its
operator, every later entry preceded by its own operator text. -/
def chainJoinChunks (b : Backend) : List LogicalChainOper → List Chunk
  | [] => []
  | c :: cs =>
      chainItemChunks b (!cs.isEmpty) false c ++ chainRestChunks b (!cs.isEmpty) cs

/-- The panic message for a mixed legacy chain.  Modelled from the spec
(section 3: mixing is "an error (rendered as panic)"); the exact wording is
not pinned down by the provided sources. -/
def chainMixMsg : String :=
  "Cannot mix and_where and or_where in one statement"

/-- Modelled from the spec (sections 3 and 4.4): render a legacy linear
chain; a chain whose entries do not all use one operator kind panics. -/
def chainChunks (b : Backend) (cs : List LogicalChainOper) :
    Except String (List Chunk) :=
  if sameKindAll cs then .ok (chainJoinChunks b cs) else .error chainMixMsg

/-- The `ConditionHolder` of `src/query/condition.rs` (not among the
provided sources; modelled from the spec, section 3): either unset, the
legacy linear chain, or the condition tree. -/
inductive ConditionHolder where
  | empty
  | chain (cs : List LogicalChainOper)
  | condition (c : Cnd)
deriving DecidableEq

/-- Modelled from the spec (sections 4.4 and 4.5): render a condition holder
behind its keyword (`WHERE` or `HAVING`); nothing is emitted when the holder
is unset or the condition tree is hereditarily empty. -/
def holderChunks (b : Backend) (kw : String) :
    ConditionHolder → Except String (List Chunk)
  | .empty => .ok []
  | .chain cs =>
      match cs with
      | [] => .ok []
      | c :: rest =>
          (chainChunks b (c :: rest)).map
            (fun body => [Chunk.str (" " ++ kw ++ " ")] ++ body)
  | .condition c =>
      .ok (if allEmptyT c.children then []
           else [Chunk.str (" " ++ kw ++ " ")] ++ cndChunks b c)

/-- Modelled from the spec (section 3, `TableRef`): table references.
Modelled fragment: bare, schema-qualified and aliased tables (sub-query
sources are outside the modelled fragment). -/
inductive TableRef where
  | table (t : String)
  | schemaTable (s t : String)
  | tableAlias (t a : String)
deriving DecidableEq

def tableRefChunks (b : Backend) : TableRef → List Chunk
  | .table t => [.str (quol b t)]
  | .schemaTable s t => [.str (quol b s ++ "." ++ quol b t)]
  | .tableAlias t a => [.str (quol b t ++ " AS " ++ quol b a)]

/-- A select-list entry: expression plus optional alias (spec section 3,
`SelectExpr`). -/
structure SelectExpr where
  expr : SimpleExpr
  aliasName : Option String
deriving DecidableEq

def selectExprChunks (b : Backend) (s : SelectExpr) : List Chunk :=
  exprChunks b s.expr
    ++ (match s.aliasName with
        | none => []
        | some a => [Chunk.str (" AS " ++ quol b a)])

inductive SqlOrder where
  | asc
  | desc
deriving DecidableEq

def dirStr : SqlOrder → String
  | .asc => "ASC"
  | .desc => "DESC"

inductive NullOrdering where
  | first
  | last
deriving DecidableEq

/-- The direction of the emulated `IS NULL` pre-sort key on MySQL/SQLite:
`DESC` for NULLS FIRST, `ASC` for NULLS LAST (spec section 4.5). -/
def nullsDirStr : NullOrdering → String
  | .first => "DESC"
  | .last => "ASC"

def nullsKeyword : NullOrdering → String
  | .first => "FIRST"
  | .last => "LAST"

/-- An order-by entry: expression, direction and optional null ordering
(spec sections 3 and 4.5; `order_by_with_nulls` in tests). -/
structure OrderExpr where
  expr : SimpleExpr
  order : SqlOrder
  nulls : Option NullOrdering
deriving DecidableEq

/-- Modelled from the spec (section 4.5): one order-by entry.  With a null
ordering, MySQL and SQLite emit two sort keys — `<expr> IS NULL <dir>`
followed by `<expr> <ASC|DESC>` — while Postgres emits a single key with
native `NULLS FIRST|LAST`. -/
def orderExprChunks (b : Backend) (o : OrderExpr) : List Chunk :=
  match b, o.nulls with
  | .postgres, some no =>
      exprChunks b o.expr
        ++ [.str (" " ++ dirStr o.order ++ " NULLS " ++ nullsKeyword no)]
  | _, some no =>
      exprChunks b o.expr ++ [.str (" IS NULL " ++ nullsDirStr no ++ ", ")]
        ++ exprChunks b o.expr ++ [.str (" " ++ dirStr o.order)]
  | _, none => exprChunks b o.expr ++ [.str (" " ++ dirStr o.order)]

/-- Join chunk lists with a literal separator. -/
def joinChunks (sep : String) : List (List Chunk) → List Chunk
  | [] => []
  | [x] => x
  | x :: xs => x ++ [.str sep] ++ joinChunks sep xs

/-- Modelled from the spec (section 3, `SelectStatement`): the select
statement fields the modelled fragment needs (joins, unions, distinct,
locks and windows are outside the modelled fragment). -/
structure SelectStatement where
  selects : List SelectExpr
  froms : List TableRef
  wherei : ConditionHolder
  groups : List SimpleExpr
  having : ConditionHolder
  orders : List OrderExpr
  limit : Option Value
  offset : Option Value
deriving DecidableEq

def SelectStatement.new : SelectStatement :=
  ⟨[], [], .empty, [], .empty, [], none, none⟩

/-- `Query::select().column(c)`: append a bare column to the select list. -/
def SelectStatement.column (s : SelectStatement) (c : String) : SelectStatement :=
  { s with selects := s.selects ++ [⟨.col none c, none⟩] }

def fromPart (b : Backend) : List TableRef → List Chunk
  | [] => []
  | t :: ts => [.str " FROM "] ++ joinChunks ", " ((t :: ts).map (tableRefChunks b))

def groupPart (b : Backend) : List SimpleExpr → List Chunk
  | [] => []
  | e :: es => [.str " GROUP BY "] ++ joinChunks ", " ((e :: es).map (exprChunks b))

def orderPart (b : Backend) : List OrderExpr → List Chunk
  | [] => []
  | o :: os => [.str " ORDER BY "] ++ joinChunks ", " ((o :: os).map (orderExprChunks b))

def limitPart : Option Value → List Chunk
  | none => []
  | some v => [.str " LIMIT ", .val v]

def offsetPart : Option Value → List Chunk
  | none => []
  | some v => [.str " OFFSET ", .val v]

/-- Modelled from the spec (section 4.6/4.7 and the 4.10 table): the
`RETURNING` clause is emitted only under Postgres/SQLite and only when the
returning list is non-empty; under MySQL it is silently omitted. -/
def returningPart (b : Backend) (rs : List SelectExpr) : List Chunk :=
  match b, rs with
  | .mysql, _ => []
  | _, [] => []
  | _, r :: rest =>
      [.str " RETURNING "] ++ joinChunks ", " ((r :: rest).map (selectExprChunks b))

/-- Modelled from the spec (section 4.5): render a select statement —
`SELECT <list> [FROM ...] [WHERE ...] [GROUP BY ...] [HAVING ...]
[ORDER BY ...] [LIMIT n] [OFFSET n]`.  A mixed legacy chain in the where or
having holder is the panic case. -/
def selectChunks (b : Backend) (s : SelectStatement) :
    Except String (List Chunk) := do
  let w ← holderChunks b "WHERE" s.wherei
  let h ← holderChunks b "HAVING" s.having
  pure ([Chunk.str "SELECT "]
    ++ joinChunks ", " (s.selects.map (selectExprChunks b))
    ++ fromPart b s.froms ++ w ++ groupPart b s.groups ++ h
    ++ orderPart b s.orders ++ limitPart s.limit ++ offsetPart s.offset)

/-- `SelectStatement::to_string`: inline rendering. -/
def selectToString (b : Backend) (s : SelectStatement) : Except String String :=
  (selectChunks b s).map (inlineRender b)

/-- `SelectStatement::build_collect`: placeholder rendering with the ordered
collected values. -/
def selectBuildCollect (b : Backend) (s : SelectStatement) :
    Except String (String × List Value) :=
  (selectChunks b s).map (fun cs => collectRender b cs 0)

/-- The `UpdateStatement` struct of `src/query/update.rs` (lines 40-48):
target table, ordered column/expression assignments, where holder,
order-bys, limit and returning list. -/
structure UpdateStatement where
  table : Option TableRef
  values : List (String × SimpleExpr)
  wherei : ConditionHolder
  orders : List OrderExpr
  limit : Option Value
  returning : List SelectExpr
deriving DecidableEq

/-- `UpdateStatement::new` (`src/query/update.rs` lines 58-67). -/
def UpdateStatement.new : UpdateStatement :=
  ⟨none, [], .empty, [], none, []⟩

/-- `UpdateStatement::table` (`src/query/update.rs` lines 75-81). -/
def UpdateStatement.tableSet (u : UpdateStatement) (t : TableRef) : UpdateStatement :=
  { u with table := some t }

/-- `UpdateStatement::push_boxed_value` (`src/query/update.rs` lines 215-218). -/
def UpdateStatement.push_boxed_value (u : UpdateStatement) (k : String)
    (v : SimpleExpr) : UpdateStatement :=
  { u with values := u.values ++ [(k, v)] }

/-- `UpdateStatement::col_expr` (`src/query/update.rs` lines 124-130). -/
def UpdateStatement.col_expr (u : UpdateStatement) (c : String)
    (e : SimpleExpr) : UpdateStatement :=
  u.push_boxed_value c e

/-- `UpdateStatement::value` (`src/query/update.rs` lines 207-213). -/
def UpdateStatement.value (u : UpdateStatement) (c : String) (v : Value) :
    UpdateStatement :=
  u.push_boxed_value c (.val v)

/-- `UpdateStatement::values` (`src/query/update.rs` lines 169-178). -/
def UpdateStatement.valuesAdd (u : UpdateStatement) :
    List (String × Value) → UpdateStatement
  | [] => u
  | (k, v) :: rest => (u.value k v).valuesAdd rest

/-- `UpdateStatement::limit` (`src/query/update.rs` lines 221-224): stores
`Value::BigUnsigned(Some(limit))`. -/
def UpdateStatement.limitSet (u : UpdateStatement) (n : Nat) : UpdateStatement :=
  { u with limit := some (.bigUnsigned (some n)) }

/-- `UpdateStatement::returning` (`src/query/update.rs` lines 259-262):
`self.returning = select.selects`. -/
def UpdateStatement.setReturning (u : UpdateStatement) (s : SelectStatement) :
    UpdateStatement :=
  { u with returning := s.selects }

/-- `UpdateStatement::returning_col` (`src/query/update.rs` lines 299-304):
wrapper over `returning` with `Query::select().column(col)`. -/
def UpdateStatement.returning_col (u : UpdateStatement) (c : String) :
    UpdateStatement :=
  u.setReturning (SelectStatement.new.column c)

def optTablePart (b : Backend) : Option TableRef → List Chunk
  | none => []
  | some t => tableRefChunks b t

def assignChunks (b : Backend) (kv : String × SimpleExpr) : List Chunk :=
  [.str (quol b kv.1 ++ " = ")] ++ exprChunks b kv.2

/-- Modelled from the spec (section 4.7): render an update statement —
`UPDATE <table> SET <col> = <expr>, ... [WHERE ...] [ORDER BY ...]
[LIMIT n] [RETURNING ...]`. -/
def updateChunks (b : Backend) (u : UpdateStatement) :
    Except String (List Chunk) := do
  let w ← holderChunks b "WHERE" u.wherei
  pure ([Chunk.str "UPDATE "] ++ optTablePart b u.table ++ [Chunk.str " SET "]
    ++ joinChunks ", " (u.values.map (assignChunks b))
    ++ w ++ orderPart b u.orders ++ limitPart u.limit
    ++ returningPart b u.returning)

/-- `UpdateStatement::to_string` — per `QueryStatementBuilder` the inline
rendering of the emission sequence of `build_collect` (`src/query/update.rs`
lines 345-353 give the collect entry point; the inline variant is modelled
from the spec, section 6). -/
def updateToString (b : Backend) (u : UpdateStatement) : Except String String :=
  (updateChunks b u).map (inlineRender b)

/-- `UpdateStatement::build_collect` (`src/query/update.rs` lines 345-353):
placeholder rendering, values pushed to the collector in emission order. -/
def updateBuildCollect (b : Backend) (u : UpdateStatement) :
    Except String (String × List Value) :=
  (updateChunks b u).map (fun cs => collectRender b cs 0)

/-- Modelled from the spec (sections 3 and 4.6): the insert statement
(`src/query/insert.rs` is not among the provided sources): target table,
column list, ordered value rows, returning list. -/
structure InsertStatement where
  table : Option TableRef
  columns : List String
  valueRows : List (List SimpleExpr)
  returning : List SelectExpr
deriving DecidableEq

def rowChunks (b : Backend) (row : List SimpleExpr) : List Chunk :=
  [.str "("] ++ joinChunks ", " (row.map (exprChunks b)) ++ [.str ")"]

def colListChunks (b : Backend) (cols : List String) : List Chunk :=
  joinChunks ", " (cols.map (fun c => [Chunk.str (quol b c)]))

/-- Every value row of the insert statement matches the column arity
(spec section 4.6: "every value-row must match column arity"). -/
def rowsArityOk (i : InsertStatement) : Bool :=
  i.valueRows.all (fun row => row.length = i.columns.length)

/-- The panic message for an arity-mismatched insert row.  Modelled from
the spec (sections 3, 4.6 and 7: a row whose arity differs from the column
list is a render-time panic); the exact wording is not pinned down by the
provided sources. -/
def arityMismatchMsg : String := "Columns and values length mismatch"

/-- Modelled from the spec (sections 3, 4.6 and 7): render an insert
statement — `INSERT INTO <table> (<cols>) VALUES (<row>), ...
[RETURNING ...]`; a value row whose arity differs from the column list is
the panic case. -/
def insertChunks (b : Backend) (i : InsertStatement) : Except String (List Chunk) :=
  if rowsArityOk i then
    .ok ([Chunk.str "INSERT INTO "] ++ optTablePart b i.table
      ++ [Chunk.str " ("] ++ colListChunks b i.columns ++ [Chunk.str ") VALUES "]
      ++ joinChunks ", " (i.valueRows.map (rowChunks b))
      ++ returningPart b i.returning)
  else .error arityMismatchMsg

def insertToString (b : Backend) (i : InsertStatement) : Except String String :=
  (insertChunks b i).map (inlineRender b)

def insertBuildCollect (b : Backend) (i : InsertStatement) :
    Except String (String × List Value) :=
  (insertChunks b i).map (fun cs => collectRender b cs 0)

/-- Column types of the modelled fragment (spec section 4.10 type table;
`ColumnDef` itself is not among the provided sources). -/
inductive ColType where
  | integer
  | bigInteger
  | doubleType
  | text
deriving DecidableEq

/-- Column specs (spec section 3, `ColumnDef`). -/
inductive ColSpec where
  | notNull
  | defaultVal (v : Value)
  | primaryKey
  | autoIncrement
  | uniqueSpec
  | extra (s : String)
deriving DecidableEq

/-- Modelled from the spec (section 3, `ColumnDef`): name, optional type,
ordered spec list. -/
structure ColumnDef where
  name : String
  ctype : Option ColType
  specs : List ColSpec
deriving DecidableEq

/-- Modelled from the spec (section 4.10 type table and the doctests of
`src/table/alter.rs`). -/
def colTypeName (b : Backend) : ColType → String
  | .integer => match b with | .mysql => "int" | _ => "integer"
  | .bigInteger => "bigint"
  | .doubleType => match b with | .mysql => "double" | .postgres => "double precision" | .sqlite => "real"
  | .text => "text"

def colSpecSql (b : Backend) : ColSpec → String
  | .notNull => " NOT NULL"
  | .defaultVal v => " DEFAULT " ++ inlineOf b v
  | .primaryKey => " PRIMARY KEY"
  | .autoIncrement =>
      match b with
      | .mysql => " AUTO_INCREMENT"
      | .sqlite => " AUTOINCREMENT"
      | .postgres => ""
  | .uniqueSpec => " UNIQUE"
  | .extra s => " " ++ s

def colSpecsSql (b : Backend) : List ColSpec → String
  | [] => ""
  | s :: ss => colSpecSql b s ++ colSpecsSql b ss

/-- Modelled from the spec (section 4.9) and the doctests of
`src/table/alter.rs`: the rendered column definition. -/
def colDefSql (b : Backend) (cd : ColumnDef) : String :=
  quol b cd.name
    ++ (match cd.ctype with
        | none => ""
        | some t => " " ++ colTypeName b t)
    ++ colSpecsSql b cd.specs

/-- `TableAlterOption` (`src/table/alter.rs` lines 40-46). -/
inductive TableAlterOption where
  | addColumn (cd : ColumnDef)
  | modifyColumn (cd : ColumnDef)
  | renameColumn (from_name to_name : String)
  | dropColumn (c : String)
deriving DecidableEq

/-- `TableAlterStatement` (`src/table/alter.rs` lines 33-37). -/
structure TableAlterStatement where
  table : Option String
  alter_option : Option TableAlterOption
deriving DecidableEq

/-- `TableAlterStatement::new` (`src/table/alter.rs` lines 56-61). -/
def TableAlterStatement.new : TableAlterStatement := ⟨none, none⟩

/-- `TableAlterStatement::table` (`src/table/alter.rs` lines 64-70). -/
def TableAlterStatement.tableSet (st : TableAlterStatement) (t : String) :
    TableAlterStatement :=
  { st with table := some t }

/-- The private `TableAlterStatement::alter_option` setter
(`src/table/alter.rs` lines 206-209): unconditionally replaces the stored
option. -/
def TableAlterStatement.setAlterOption (st : TableAlterStatement)
    (opt : TableAlterOption) : TableAlterStatement :=
  { st with alter_option := some opt }

/-- `TableAlterStatement::add_column` (`src/table/alter.rs` lines 102-104);
the Rust method consumes the column definition via `take()`, modelled by
passing the definition by value. -/
def TableAlterStatement.add_column (st : TableAlterStatement) (cd : ColumnDef) :
    TableAlterStatement :=
  st.setAlterOption (.addColumn cd)

/-- `TableAlterStatement::modify_column` (`src/table/alter.rs` lines 137-139). -/
def TableAlterStatement.modify_column (st : TableAlterStatement) (cd : ColumnDef) :
    TableAlterStatement :=
  st.setAlterOption (.modifyColumn cd)

/-- `TableAlterStatement::rename_column` (`src/table/alter.rs` lines 166-175). -/
def TableAlterStatement.rename_column (st : TableAlterStatement)
    (from_name to_name : String) : TableAlterStatement :=
  st.setAlterOption (.renameColumn from_name to_name)

/-- `TableAlterStatement::drop_column` (`src/table/alter.rs` lines 199-204). -/
def TableAlterStatement.drop_column (st : TableAlterStatement) (c : String) :
    TableAlterStatement :=
  st.setAlterOption (.dropColumn c)

def alterTableName (b : Backend) : Option String → String
  | none => ""
  | some t => quol b t

/-- Modelled from the doctest of `modify_column` in `src/table/alter.rs`:
the first `DEFAULT` spec of the definition, if any. -/
def pgDefaultOf : List ColSpec → Option Value
  | [] => none
  | .defaultVal v :: _ => some v
  | _ :: ss => pgDefaultOf ss

/-- Modelled from the spec (section 4.9) and the `modify_column` doctest:
the Postgres modify-column clauses. -/
def pgModifySql (cd : ColumnDef) : String :=
  "ALTER COLUMN " ++ quol .postgres cd.name
    ++ (match cd.ctype with
        | none => ""
        | some t => " TYPE " ++ colTypeName .postgres t)
    ++ (match pgDefaultOf cd.specs with
        | none => ""
        | some v =>
            ", ALTER COLUMN " ++ quol .postgres cd.name ++ " SET DEFAULT "
              ++ inlineOf .postgres v)

/-- Modelled from the spec (section 4.9) and the tests of
`tests/sqlite/table.rs`: render a table-alter statement; a statement without
an option panics, and SQLite panics on modify/drop column with the
documented messages. -/
def alterBuild (b : Backend) (st : TableAlterStatement) : Except String String :=
  match st.alter_option with
  | none => .error "No alter option found"
  | some opt =>
      match b, opt with
      | .sqlite, .modifyColumn _ => .error "Sqlite not support modifying table column"
      | .sqlite, .dropColumn _ => .error "Sqlite not support dropping table column"
      | _, .addColumn cd =>
          .ok ("ALTER TABLE " ++ alterTableName b st.table ++ " ADD COLUMN "
            ++ colDefSql b cd)
      | .mysql, .modifyColumn cd =>
          .ok ("ALTER TABLE " ++ alterTableName .mysql st.table
            ++ " MODIFY COLUMN " ++ colDefSql .mysql cd)
      | .postgres, .modifyColumn cd =>
          .ok ("ALTER TABLE " ++ alterTableName .postgres st.table ++ " "
            ++ pgModifySql cd)
      | _, .renameColumn a c =>
          .ok ("ALTER TABLE " ++ alterTableName b st.table ++ " RENAME COLUMN "
            ++ quol b a ++ " TO " ++ quol b c)
      | _, .dropColumn c =>
          .ok ("ALTER TABLE " ++ alterTableName b st.table ++ " DROP COLUMN "
            ++ quol b c)

/-- One builder call on a `TableAlterStatement` that stores an alter option
(`add_column`, `modify_column`, `rename_column`, `drop_column`). -/
inductive AlterCall where
  | add (cd : ColumnDef)
  | modify (cd : ColumnDef)
  | rename (from_name to_name : String)
  | drop (c : String)
deriving DecidableEq

/-- The option the call stores (via the private `alter_option` setter). -/
def alterCallOption : AlterCall → TableAlterOption
  | .add cd => .addColumn cd
  | .modify cd => .modifyColumn cd
  | .rename a c => .renameColumn a c
  | .drop c => .dropColumn c

/-- Apply one builder call through the embedded source methods. -/
def applyAlterCall (st : TableAlterStatement) : AlterCall → TableAlterStatement
  | .add cd => st.add_column cd
  | .modify cd => st.modify_column cd
  | .rename a c => st.rename_column a c
  | .drop c => st.drop_column c

/-- Interleave segments with replacement strings: the n+1 segments of a SQL
string around its n placeholder markers, with each marker position filled by
the corresponding replacement. -/
def weave : List String → List String → String
  | [], _ => ""
  | s :: _, [] => s
  | s :: segs, r :: reps => s ++ r ++ weave segs reps

/-! Concrete statements mirroring the in-repo tests; used below to validate
the modelled renderer against the expected strings of the test suite and as
witness inputs. -/

def colE (c : String) : SimpleExpr := .col none c

def eqInt (c : String) (n : Int) : SimpleExpr :=
  .bin (colE c) .eqOp (.val (.int (some n)))

/-- The select statement of test select_1. -/
def exSel1 : SelectStatement :=
  ⟨[⟨colE "character", none⟩, ⟨colE "size_w", none⟩, ⟨colE "size_h", none⟩],
   [.table "character"], .empty, [], .empty, [],
   some (.bigUnsigned (some 10)), some (.bigUnsigned (some 100))⟩

/-- The select statement of test select_3 (two `and_where` calls). -/
def exSel3 : SelectStatement :=
  ⟨[⟨colE "character", none⟩, ⟨colE "size_w", none⟩, ⟨colE "size_h", none⟩],
   [.table "character"],
   .chain [.andOper (eqInt "size_w" 3), .andOper (eqInt "size_h" 4)],
   [], .empty, [], none, none⟩

/-- The select statement of test select_28 (three `or_where` calls). -/
def exSel28 : SelectStatement :=
  ⟨[⟨colE "character", none⟩, ⟨colE "size_w", none⟩, ⟨colE "size_h", none⟩],
   [.table "character"],
   .chain [.orOper (eqInt "size_w" 3), .orOper (eqInt "size_h" 4),
           .orOper (eqInt "size_h" 5)],
   [], .empty, [], none, none⟩

/-- The mixed legacy chain of test select_29 (`and_where`, `or_where`,
`and_where`). -/
def exMixChain : List LogicalChainOper :=
  [.andOper (eqInt "size_w" 3), .orOper (eqInt "size_h" 4),
   .andOper (eqInt "size_h" 5)]

/-- The select statement of test select_29: the mixed legacy chain. -/
def exSel29 : SelectStatement :=
  ⟨[⟨colE "character", none⟩, ⟨colE "size_w", none⟩, ⟨colE "size_h", none⟩],
   [.table "character"], .chain exMixChain,
   [], .empty, [], none, none⟩

/-- A two-entry chain `or_where` then `and_where`, the shape of test
select_34b (there phrased with `or_having`/`and_having`). -/
def exMix2 : SelectStatement :=
  ⟨[⟨colE "id", none⟩], [.table "glyph"],
   .chain [.orOper (eqInt "aspect" 2), .andOper (eqInt "aspect" 22)],
   [], .empty, [], none, none⟩

/-- The select statement of test select_37: the where condition is
`Cond::any().add(Cond::all()).add(Cond::any())` — a tree of empty nodes. -/
def exSel37 : SelectStatement :=
  ⟨[⟨colE "id", none⟩], [.table "glyph"],
   .condition ⟨.any, false, .consNode .all false .nil (.consNode .any false .nil .nil)⟩,
   [], .empty, [], none, none⟩

/-- The select statement of test select_38. -/
def exSel38 : SelectStatement :=
  ⟨[⟨colE "id", none⟩], [.table "glyph"],
   .condition ⟨.any, false,
     .consExpr (.isNull (colE "aspect")) (.consExpr (.isNotNull (colE "aspect")) .nil)⟩,
   [], .empty, [], none, none⟩

/-- The select statement of test select_40: `any![x, all![y, z]]`. -/
def exSel40 : SelectStatement :=
  ⟨[⟨colE "id", none⟩], [.table "glyph"],
   .condition ⟨.any, false,
     .consExpr (.isNull (colE "aspect"))
       (.consNode .all false
         (.consExpr (.isNotNull (colE "aspect"))
           (.consExpr (.bin (colE "aspect") .ltOp (.val (.int (some 8)))) .nil))
         .nil)⟩,
   [], .empty, [], none, none⟩

/-- The select statement of test select_44: a negated `any` with one leaf. -/
def exSel44 : SelectStatement :=
  ⟨[⟨colE "id", none⟩], [.table "glyph"],
   .condition ⟨.any, true,
     .consExpr (.bin (colE "aspect") .ltOp (.val (.int (some 8)))) .nil⟩,
   [], .empty, [], none, none⟩

/-- The select statement of test select_51 (`order_by_with_nulls`). -/
def exSel51 : SelectStatement :=
  ⟨[⟨colE "aspect", none⟩], [.table "glyph"],
   .chain [.andOper (.bin (.funcCall2 "IFNULL" (colE "aspect") (.val (.int (some 0))))
     .gtOp (.val (.int (some 2))))],
   [], .empty,
   [⟨colE "image", .desc, some .first⟩, ⟨.col (some "glyph") "aspect", .asc, some .last⟩],
   none, none⟩

/-- The condition tree shape of test select_22, with integer comparisons in
place of the string `LIKE` patterns. -/
def exSel22 : SelectStatement :=
  ⟨[⟨colE "c", none⟩], [.table "character"],
   .condition ⟨.all, false,
     .consNode .any false
       (.consExpr (eqInt "a" 1)
         (.consExpr (.bin (eqInt "a" 2) .andOp (eqInt "a" 3)) .nil))
       (.consExpr (.bin (eqInt "a" 4) .orOp (eqInt "a" 5)) .nil)⟩,
   [], .empty, [], none, none⟩

/-- The update statement of the `build_collect` doctest in
`src/query/update.rs` (values for `aspect` and `image`, `WHERE id = 1`). -/
def exUpd : UpdateStatement :=
  { (UpdateStatement.new.tableSet (.table "glyph")).valuesAdd
      [("aspect", .double (some "2.1345")), ("image", .str (some "235m"))] with
    wherei := .chain [.andOper (eqInt "id" 1)] }

/-- The update statement of test update_1, with an integer value. -/
def exUpd1 : UpdateStatement :=
  { table := some (.table "glyph")
    values := [("aspect", .val (.int (some 2)))]
    wherei := .chain [.andOper (eqInt "id" 1)]
    orders := [⟨colE "id", .asc, none⟩]
    limit := some (.bigUnsigned (some 1))
    returning := [] }

/-- The update statement of the `returning_col` doctest, with an integer
value. -/
def exUpdRet : UpdateStatement :=
  UpdateStatement.returning_col
    { (UpdateStatement.new.tableSet (.table "glyph")).value "aspect" (.int (some 2)) with
      wherei := .chain [.andOper (eqInt "id" 1)] }
    "id"

/-- The column definition of test alter_1 (integer, not null, default 99). -/
def exCd1 : ColumnDef := ⟨"new_col", some .integer, [.notNull, .defaultVal (.int (some 99))]⟩

/-- The column definition of the `modify_column` doctest (big integer,
default 999). -/
def exCd2 : ColumnDef := ⟨"new_col", some .bigInteger, [.defaultVal (.int (some 999))]⟩

/-- The alter statement of tests alter_1/alter_2/alter_4 before the option
call. -/
def exAlterBase : TableAlterStatement := TableAlterStatement.new.tableSet "font"

/-- A bare `SELECT id FROM glyph` with no where clause. -/
def exSelBase : SelectStatement :=
  ⟨[⟨colE "id", none⟩], [.table "glyph"], .empty, [], .empty, [], none, none⟩

/-- The condition of test select_37: an ANY node whose two children are
empty ALL/ANY nodes. -/
def exCndEmpty : Cnd :=
  ⟨.any, false, .consNode .all false .nil (.consNode .any false .nil .nil)⟩

/-- The where chunks of `exUpdRet`. -/
def exRetW (b : Backend) : List Chunk :=
  [Chunk.str " WHERE "] ++ exprChunks b (eqInt "id" 1)

/-- The collect-mode SQL of `exUpd` under MySQL (the `build_collect`
doctest). -/
def exUpdSqlQ : String :=
  "UPDATE `glyph` SET `aspect` = ?, `image` = ? WHERE `id` = ?"

/-- The collected values of `exUpd` (the `build_collect` doctest). -/
def exUpdVals : List Value :=
  [.double (some "2.1345"), .str (some "235m"), .int (some 1)]

/-- The insert statement of test insert_2, extended with a returning
column; one row of arity two for the two columns. -/
def exIns : InsertStatement :=
  ⟨some (.table "glyph"), ["image", "aspect"],
   [[.val (.str (some "04108048005887010020060000204E0180400400")),
     .val (.double (some "3.1415"))]],
   [⟨colE "id", none⟩]⟩

/-- An arity-mismatched insert: one value row of length one against two
columns. -/
def exInsBad : InsertStatement :=
  ⟨some (.table "glyph"), ["image", "aspect"], [[.val (.int (some 1))]], []⟩

/-! Validation of the modelled renderer against the expected strings of the
in-repo test suites. -/

example :
    selectToString .mysql exSel1 =
      .ok "SELECT `character`, `size_w`, `size_h` FROM `character` LIMIT 10 OFFSET 100" := by
  rfl

example :
    selectToString .mysql exSel3 =
      .ok "SELECT `character`, `size_w`, `size_h` FROM `character` WHERE `size_w` = 3 AND `size_h` = 4" := by
  rfl

example :
    selectToString .mysql exSel28 =
      .ok "SELECT `character`, `size_w`, `size_h` FROM `character` WHERE `size_w` = 3 OR `size_h` = 4 OR `size_h` = 5" := by
  rfl

example : selectToString .mysql exSel29 = .error chainMixMsg := by rfl

example : selectToString .mysql exMix2 = .error chainMixMsg := by rfl

example : selectToString .mysql exSel37 = .ok "SELECT `id` FROM `glyph`" := by rfl

example :
    selectBuildCollect .mysql exSel37 = .ok ("SELECT `id` FROM `glyph`", []) := by
  rfl

example :
    selectToString .mysql exSel38 =
      .ok "SELECT `id` FROM `glyph` WHERE `aspect` IS NULL OR `aspect` IS NOT NULL" := by
  rfl

example :
    selectToString .mysql exSel40 =
      .ok "SELECT `id` FROM `glyph` WHERE `aspect` IS NULL OR (`aspect` IS NOT NULL AND `aspect` < 8)" := by
  rfl

example :
    selectToString .mysql exSel44 =
      .ok "SELECT `id` FROM `glyph` WHERE NOT (`aspect` < 8)" := by
  rfl

example :
    selectToString .mysql exSel51 =
      .ok "SELECT `aspect` FROM `glyph` WHERE IFNULL(`aspect`, 0) > 2 ORDER BY `image` IS NULL DESC, `image` DESC, `glyph`.`aspect` IS NULL ASC, `glyph`.`aspect` ASC" := by
  rfl

example :
    selectToString .mysql exSel22 =
      .ok "SELECT `c` FROM `character` WHERE (`a` = 1 OR ((`a` = 2) AND (`a` = 3))) AND ((`a` = 4) OR (`a` = 5))" := by
  rfl

example :
    updateBuildCollect .mysql exUpd =
      .ok ("UPDATE `glyph` SET `aspect` = ?, `image` = ? WHERE `id` = ?",
           [.double (some "2.1345"), .str (some "235m"), .int (some 1)]) := by
  rfl

example :
    updateBuildCollect .postgres exUpd =
      .ok ("UPDATE \"glyph\" SET \"aspect\" = $1, \"image\" = $2 WHERE \"id\" = $3",
           [.double (some "2.1345"), .str (some "235m"), .int (some 1)]) := by
  rfl

example :
    updateToString .mysql exUpd1 =
      .ok "UPDATE `glyph` SET `aspect` = 2 WHERE `id` = 1 ORDER BY `id` ASC LIMIT 1" := by
  rfl

example :
    updateToString .mysql exUpdRet =
      .ok "UPDATE `glyph` SET `aspect` = 2 WHERE `id` = 1" := by
  rfl

example :
    updateToString .postgres exUpdRet =
      .ok "UPDATE \"glyph\" SET \"aspect\" = 2 WHERE \"id\" = 1 RETURNING \"id\"" := by
  rfl

example :
    updateToString .sqlite exUpdRet =
      .ok "UPDATE \"glyph\" SET \"aspect\" = 2 WHERE \"id\" = 1 RETURNING \"id\"" := by
  rfl

example :
    alterBuild .sqlite (exAlterBase.add_column exCd1) =
      .ok "ALTER TABLE \"font\" ADD COLUMN \"new_col\" integer NOT NULL DEFAULT 99" := by
  rfl

example :
    alterBuild .mysql (exAlterBase.modify_column exCd2) =
      .ok "ALTER TABLE `font` MODIFY COLUMN `new_col` bigint DEFAULT 999" := by
  rfl

example :
    alterBuild .postgres (exAlterBase.modify_column exCd2) =
      .ok "ALTER TABLE \"font\" ALTER COLUMN \"new_col\" TYPE bigint, ALTER COLUMN \"new_col\" SET DEFAULT 999" := by
  rfl

example :
    alterBuild .sqlite (exAlterBase.rename_column "new_col" "new_column") =
      .ok "ALTER TABLE \"font\" RENAME COLUMN \"new_col\" TO \"new_column\"" := by
  rfl

example :
    alterBuild .sqlite (exAlterBase.modify_column exCd1) =
      .error "Sqlite not support modifying table column" := by
  rfl

example :
    alterBuild .sqlite (exAlterBase.drop_column "new_column") =
      .error "Sqlite not support dropping table column" := by
  rfl

example : alterBuild .sqlite TableAlterStatement.new = .error "No alter option found" := by
  rfl

example :
    insertBuildCollect .mysql { exIns with returning := [] } =
      .ok ("INSERT INTO `glyph` (`image`, `aspect`) VALUES (?, ?)",
           [.str (some "04108048005887010020060000204E0180400400"),
            .double (some "3.1415")]) := by
  rfl

example :
    insertBuildCollect .mysql exIns =
      .ok ("INSERT INTO `glyph` (`image`, `aspect`) VALUES (?, ?)",
           [.str (some "04108048005887010020060000204E0180400400"),
            .double (some "3.1415")]) := by
  rfl

example :
    insertBuildCollect .postgres exIns =
      .ok ("INSERT INTO \"glyph\" (\"image\", \"aspect\") VALUES ($1, $2) RETURNING \"id\"",
           [.str (some "04108048005887010020060000204E0180400400"),
            .double (some "3.1415")]) := by
  rfl

example : insertToString .mysql exInsBad = .error arityMismatchMsg := by rfl

example : insertToString .postgres exInsBad = .error arityMismatchMsg := by rfl

/-! Helper lemmas. -/

theorem weave_cons_append (s t : String) (segs reps : List String) :
    weave ((s ++ t) :: segs) reps = s ++ weave (t :: segs) reps := by
  cases reps with
  | nil => simp [weave]
  | cons r rs => simp [weave, String.append_assoc]

/-- The two rendering modes agree chunk by chunk: starting from `n` already
collected values, the collect-mode output splits into segments around its
markers (numbered from `n + 1` in order), the collected values are the
emitted values in order, and the inline-mode output is the same segments
around the inline forms of those values. -/
theorem renderModesAux (b : Backend) (cs : List Chunk) : ∀ n : Nat,
    (collectRender b cs n).2 = chunkValues cs ∧
    ∃ segs : List String, segs.length = (chunkValues cs).length + 1 ∧
      (collectRender b cs n).1 =
        weave segs ((List.range (chunkValues cs).length).map fun i => marker b (n + i + 1)) ∧
      inlineRender b cs = weave segs ((chunkValues cs).map (inlineOf b)) := by
  induction cs with
  | nil =>
      intro n
      exact ⟨rfl, [""], rfl, rfl, rfl⟩
  | cons c cs ih =>
      intro n
      cases c with
      | str s =>
          obtain ⟨h2, segs, hlen, hc, hi⟩ := ih n
          cases segs with
          | nil => simp at hlen
          | cons t ts =>
              refine ⟨h2, (s ++ t) :: ts, hlen, ?_, ?_⟩
              · show s ++ (collectRender b cs n).1 =
                    weave ((s ++ t) :: ts)
                      ((List.range (chunkValues cs).length).map fun i => marker b (n + i + 1))
                rw [weave_cons_append, hc]
              · show s ++ inlineRender b cs =
                    weave ((s ++ t) :: ts) ((chunkValues cs).map (inlineOf b))
                rw [weave_cons_append, hi]
      | val v =>
          obtain ⟨h2, segs, hlen, hc, hi⟩ := ih (n + 1)
          refine ⟨?_, "" :: segs, ?_, ?_, ?_⟩
          · show v :: (collectRender b cs (n + 1)).2 = v :: chunkValues cs
            rw [h2]
          · show segs.length + 1 = (chunkValues cs).length + 1 + 1
            rw [hlen]
          · show marker b (n + 1) ++ (collectRender b cs (n + 1)).1 =
                weave ("" :: segs)
                  ((List.range ((chunkValues cs).length + 1)).map fun i => marker b (n + i + 1))
            rw [List.range_succ_eq_map, List.map_cons, List.map_map]
            have hmap :
                (List.range (chunkValues cs).length).map
                    ((fun i => marker b (n + i + 1)) ∘ Nat.succ) =
                  (List.range (chunkValues cs).length).map
                    (fun i => marker b (n + 1 + i + 1)) :=
              List.map_congr_left (fun i _ => by
                show marker b (n + (i + 1) + 1) = marker b (n + 1 + i + 1)
                have hn : n + (i + 1) + 1 = n + 1 + i + 1 := by omega
                rw [hn])
            rw [hmap]
            show marker b (n + 1) ++ (collectRender b cs (n + 1)).1 =
                "" ++ marker b (n + 0 + 1)
                  ++ weave segs ((List.range (chunkValues cs).length).map fun i => marker b (n + 1 + i + 1))
            rw [hc]
            rfl
          · show inlineOf b v ++ inlineRender b cs =
                inlineOf b v ++ weave segs ((chunkValues cs).map (inlineOf b))
            rw [hi]

/-- Specialization at a fully run collect rendering: the collect SQL splits
into segments around markers `1..n` and the inline rendering is the same
segments around the inline forms of the collected values. -/
theorem chunksRefine (b : Backend) (cs : List Chunk) (sql : String)
    (vals : List Value) (h : collectRender b cs 0 = (sql, vals)) :
    ∃ segs : List String, segs.length = vals.length + 1 ∧
      sql = weave segs ((List.range vals.length).map fun i => marker b (i + 1)) ∧
      inlineRender b cs = weave segs (vals.map (inlineOf b)) := by
  obtain ⟨h2, segs, hlen, hcoll, hinl⟩ := renderModesAux b cs 0
  have hvals : vals = chunkValues cs := by rw [← h2, h]
  have hsql : sql = (collectRender b cs 0).1 := by rw [h]
  subst hvals
  have hmap : (List.range (chunkValues cs).length).map (fun i => marker b (0 + i + 1)) =
      (List.range (chunkValues cs).length).map (fun i => marker b (i + 1)) :=
    List.map_congr_left (fun i _ => by rw [Nat.zero_add])
  exact ⟨segs, hlen, by rw [hsql, hcoll, hmap], hinl⟩

/-- Unfolding of the update renderer when the where holder succeeds. -/
theorem updateChunks_ok (b : Backend) (u : UpdateStatement) (w : List Chunk)
    (hw : holderChunks b "WHERE" u.wherei = .ok w) :
    updateChunks b u = .ok ([Chunk.str "UPDATE "] ++ optTablePart b u.table
      ++ [Chunk.str " SET "] ++ joinChunks ", " (u.values.map (assignChunks b))
      ++ w ++ orderPart b u.orders ++ limitPart u.limit
      ++ returningPart b u.returning) := by
  rw [updateChunks, hw]
  rfl

/-! Claim theorems. -/

/-- Claim C1: for every statement AST of the modelled fragment (an
`UpdateStatement` in particular, and likewise a `SelectStatement`) and
every dialect backend, the string returned by `to_string` is byte-identical
to the string returned by `build_collect` after each placeholder marker is
replaced, in placeholder order, by the inline SQL form of the corresponding
collected value: the collect-mode SQL decomposes into segments around its
markers `1..n` in order, and the inline-mode SQL is exactly the same
segments around the inline forms of the collected values. -/
theorem c1_to_string_refines_build_collect :
    (∀ (b : Backend) (u : UpdateStatement) (sql : String) (vals : List Value),
        updateBuildCollect b u = .ok (sql, vals) →
        ∃ segs : List String, segs.length = vals.length + 1 ∧
          sql = weave segs ((List.range vals.length).map fun i => marker b (i + 1)) ∧
          updateToString b u = .ok (weave segs (vals.map (inlineOf b)))) ∧
    (∀ (b : Backend) (s : SelectStatement) (sql : String) (vals : List Value),
        selectBuildCollect b s = .ok (sql, vals) →
        ∃ segs : List String, segs.length = vals.length + 1 ∧
          sql = weave segs ((List.range vals.length).map fun i => marker b (i + 1)) ∧
          selectToString b s = .ok (weave segs (vals.map (inlineOf b)))) := by
  constructor
  · intro b u sql vals h
    cases hcs : updateChunks b u with
    | error e =>
        rw [updateBuildCollect, hcs] at h
        simp [Except.map] at h
    | ok cs =>
        rw [updateBuildCollect, hcs] at h
        simp only [Except.map, Except.ok.injEq] at h
        obtain ⟨segs, hlen, hsql, hinl⟩ := chunksRefine b cs sql vals h
        refine ⟨segs, hlen, hsql, ?_⟩
        rw [updateToString, hcs]
        simp only [Except.map]
        rw [hinl]
  · intro b s sql vals h
    cases hcs : selectChunks b s with
    | error e =>
        rw [selectBuildCollect, hcs] at h
        simp [Except.map] at h
    | ok cs =>
        rw [selectBuildCollect, hcs] at h
        simp only [Except.map, Except.ok.injEq] at h
        obtain ⟨segs, hlen, hsql, hinl⟩ := chunksRefine b cs sql vals h
        refine ⟨segs, hlen, hsql, ?_⟩
        rw [selectToString, hcs]
        simp only [Except.map]
        rw [hinl]

/-- Claim C1 witness: the `build_collect` doctest update under MySQL. -/
theorem c1_to_string_refines_build_collect_witness :
    updateBuildCollect .mysql exUpd = .ok (exUpdSqlQ, exUpdVals) ∧
    ∃ segs : List String, segs.length = exUpdVals.length + 1 ∧
      exUpdSqlQ = weave segs ((List.range exUpdVals.length).map fun i => marker .mysql (i + 1)) ∧
      updateToString .mysql exUpd = .ok (weave segs (exUpdVals.map (inlineOf .mysql))) :=
  ⟨rfl, c1_to_string_refines_build_collect.1 .mysql exUpd exUpdSqlQ exUpdVals rfl⟩

/-- Claim C2: for every `UpdateStatement` (and `InsertStatement`) with a
non-empty returning list, rendering under the Postgres or SQLite backend
appends a `RETURNING` clause listing the returning expressions, while the
MySQL backend produces the same statement with the clause entirely absent
and without panicking — for an update under the hypothesis that the where
holder itself renders, and for an insert under the hypothesis that every
value row matches the column arity, those being the panic sources of
update and insert rendering. -/
theorem c2_returning_only_postgres_sqlite :
    (∀ (b : Backend) (u : UpdateStatement) (w : List Chunk),
        holderChunks b "WHERE" u.wherei = .ok w →
        u.returning ≠ [] →
        (b = .postgres ∨ b = .sqlite →
          ∃ base : List Chunk,
            updateChunks b { u with returning := [] } = .ok base ∧
            updateChunks b u =
              .ok (base ++ [Chunk.str " RETURNING "]
                ++ joinChunks ", " (u.returning.map (selectExprChunks b)))) ∧
        (b = .mysql →
          updateToString b u = updateToString b { u with returning := [] } ∧
          updateBuildCollect b u = updateBuildCollect b { u with returning := [] } ∧
          ∃ out : String, updateToString b u = .ok out)) ∧
    (∀ (b : Backend) (i : InsertStatement),
        rowsArityOk i = true →
        i.returning ≠ [] →
        (b = .postgres ∨ b = .sqlite →
          ∃ base : List Chunk,
            insertChunks b { i with returning := [] } = .ok base ∧
            insertChunks b i =
              .ok (base ++ [Chunk.str " RETURNING "]
                ++ joinChunks ", " (i.returning.map (selectExprChunks b)))) ∧
        (b = .mysql →
          insertToString b i = insertToString b { i with returning := [] } ∧
          insertBuildCollect b i = insertBuildCollect b { i with returning := [] } ∧
          ∃ out : String, insertToString b i = .ok out)) := by
  constructor
  · intro b u w hw h1
    have hw2 : holderChunks b "WHERE" (UpdateStatement.wherei { u with returning := [] }) = .ok w := hw
    obtain ⟨r, rest, hur⟩ := List.exists_cons_of_ne_nil h1
    constructor
    · intro hb
      refine ⟨[Chunk.str "UPDATE "] ++ optTablePart b u.table ++ [Chunk.str " SET "]
        ++ joinChunks ", " (u.values.map (assignChunks b))
        ++ w ++ orderPart b u.orders ++ limitPart u.limit, ?_, ?_⟩
      · rw [updateChunks_ok b _ w hw2]
        rcases hb with rfl | rfl <;> simp [returningPart]
      · rw [updateChunks_ok b u w hw, hur]
        rcases hb with rfl | rfl <;> simp [returningPart, List.append_assoc]
    · intro hb
      subst hb
      have he : updateChunks .mysql u = updateChunks .mysql { u with returning := [] } := by
        rw [updateChunks_ok .mysql u w hw, updateChunks_ok .mysql _ w hw2]
        simp [returningPart]
      refine ⟨?_, ?_, ?_⟩
      · rw [updateToString, updateToString, he]
      · rw [updateBuildCollect, updateBuildCollect, he]
      · have hok : updateToString .mysql u =
            .ok (inlineRender .mysql ([Chunk.str "UPDATE "] ++ optTablePart .mysql u.table
              ++ [Chunk.str " SET "] ++ joinChunks ", " (u.values.map (assignChunks .mysql))
              ++ w ++ orderPart .mysql u.orders ++ limitPart u.limit
              ++ returningPart .mysql u.returning)) := by
          rw [updateToString, updateChunks_ok .mysql u w hw]
          rfl
        exact ⟨_, hok⟩
  · intro b i ha h1
    have ha2 : rowsArityOk { i with returning := [] } = true := ha
    obtain ⟨r, rest, hir⟩ := List.exists_cons_of_ne_nil h1
    constructor
    · intro hb
      refine ⟨[Chunk.str "INSERT INTO "] ++ optTablePart b i.table
        ++ [Chunk.str " ("] ++ colListChunks b i.columns ++ [Chunk.str ") VALUES "]
        ++ joinChunks ", " (i.valueRows.map (rowChunks b)), ?_, ?_⟩
      · rw [insertChunks, if_pos ha2]
        rcases hb with rfl | rfl <;> simp [returningPart]
      · rw [insertChunks, if_pos ha, hir]
        rcases hb with rfl | rfl <;> simp [returningPart, List.append_assoc]
    · intro hb
      subst hb
      have he : insertChunks .mysql i = insertChunks .mysql { i with returning := [] } := by
        rw [insertChunks, insertChunks, if_pos ha, if_pos ha2]
        simp [returningPart]
      refine ⟨by rw [insertToString, insertToString, he],
              by rw [insertBuildCollect, insertBuildCollect, he], ?_⟩
      have hok : insertToString .mysql i =
          .ok (inlineRender .mysql ([Chunk.str "INSERT INTO "] ++ optTablePart .mysql i.table
            ++ [Chunk.str " ("] ++ colListChunks .mysql i.columns ++ [Chunk.str ") VALUES "]
            ++ joinChunks ", " (i.valueRows.map (rowChunks .mysql))
            ++ returningPart .mysql i.returning)) := by
        rw [insertToString, insertChunks, if_pos ha]
        rfl
      exact ⟨_, hok⟩

/-- Claim C2 witness: the `returning_col` doctest update under Postgres and
under MySQL, and the arity-correct insert `exIns` under Postgres and under
MySQL. -/
theorem c2_returning_only_postgres_sqlite_witness :
    holderChunks .postgres "WHERE" exUpdRet.wherei = .ok (exRetW .postgres) ∧
    exUpdRet.returning ≠ [] ∧
    (∃ base : List Chunk,
        updateChunks .postgres { exUpdRet with returning := [] } = .ok base ∧
        updateChunks .postgres exUpdRet =
          .ok (base ++ [Chunk.str " RETURNING "]
            ++ joinChunks ", " (exUpdRet.returning.map (selectExprChunks .postgres)))) ∧
    updateToString .mysql exUpdRet = updateToString .mysql { exUpdRet with returning := [] } ∧
    rowsArityOk exIns = true ∧
    exIns.returning ≠ [] ∧
    (∃ base : List Chunk,
        insertChunks .postgres { exIns with returning := [] } = .ok base ∧
        insertChunks .postgres exIns =
          .ok (base ++ [Chunk.str " RETURNING "]
            ++ joinChunks ", " (exIns.returning.map (selectExprChunks .postgres)))) ∧
    insertToString .mysql exIns = insertToString .mysql { exIns with returning := [] } :=
  ⟨rfl, by decide,
   (c2_returning_only_postgres_sqlite.1 .postgres exUpdRet (exRetW .postgres) rfl
      (by decide)).1 (Or.inl rfl),
   ((c2_returning_only_postgres_sqlite.1 .mysql exUpdRet (exRetW .mysql) rfl
      (by decide)).2 rfl).1,
   rfl, by decide,
   (c2_returning_only_postgres_sqlite.2 .postgres exIns rfl (by decide)).1 (Or.inl rfl),
   ((c2_returning_only_postgres_sqlite.2 .mysql exIns rfl (by decide)).2 rfl).1⟩

/-- Claim C3: for every `TableAlterStatement` whose alter option is
`ModifyColumn`, rendering under the SQLite backend panics with
"Sqlite not support modifying table column"; with `DropColumn`, it panics
with "Sqlite not support dropping table column" (tests alter_2 and
alter_4). -/
theorem c3_sqlite_modify_drop_errors :
    (∀ (st : TableAlterStatement) (cd : ColumnDef),
        st.alter_option = some (.modifyColumn cd) →
        alterBuild .sqlite st = .error "Sqlite not support modifying table column") ∧
    (∀ (st : TableAlterStatement) (c : String),
        st.alter_option = some (.dropColumn c) →
        alterBuild .sqlite st = .error "Sqlite not support dropping table column") := by
  constructor
  · intro st cd h
    rw [alterBuild, h]
  · intro st c h
    rw [alterBuild, h]

/-- Claim C3 witness: the statements of tests alter_2 and alter_4. -/
theorem c3_sqlite_modify_drop_errors_witness :
    (exAlterBase.modify_column exCd1).alter_option = some (.modifyColumn exCd1) ∧
    alterBuild .sqlite (exAlterBase.modify_column exCd1) =
      .error "Sqlite not support modifying table column" ∧
    (exAlterBase.drop_column "new_column").alter_option = some (.dropColumn "new_column") ∧
    alterBuild .sqlite (exAlterBase.drop_column "new_column") =
      .error "Sqlite not support dropping table column" :=
  ⟨rfl, c3_sqlite_modify_drop_errors.1 (exAlterBase.modify_column exCd1) exCd1 rfl,
   rfl, c3_sqlite_modify_drop_errors.2 (exAlterBase.drop_column "new_column") "new_column" rfl⟩

/-- Claim C8: for every `TableAlterStatement` whose alter option is unset,
rendering under any backend panics with "No alter option found"
(test alter_6). -/
theorem c8_no_alter_option_panics :
    ∀ (b : Backend) (st : TableAlterStatement),
      st.alter_option = none →
      alterBuild b st = .error "No alter option found" := by
  intro b st h
  rw [alterBuild, h]

/-- Claim C8 witness: the blank alter statement of test alter_6. -/
theorem c8_no_alter_option_panics_witness :
    TableAlterStatement.new.alter_option = none ∧
    alterBuild .sqlite TableAlterStatement.new = .error "No alter option found" :=
  ⟨rfl, c8_no_alter_option_panics .sqlite TableAlterStatement.new rfl⟩

/-- Claim C9: every builder call (`add_column`, `modify_column`,
`rename_column`, `drop_column`) stores exactly its own option, replacing
any previous one, and after any non-empty sequence of such calls the
statement holds exactly the option created by the last call; the
`alter_option` field being an `Option` makes "at most one option at any
time" structural. -/
theorem c9_alter_option_last_call_wins :
    (∀ (st : TableAlterStatement) (call : AlterCall),
        (applyAlterCall st call).alter_option = some (alterCallOption call)) ∧
    (∀ (cs : List AlterCall) (st : TableAlterStatement) (c : AlterCall),
        cs.getLast? = some c →
        (cs.foldl applyAlterCall st).alter_option = some (alterCallOption c)) := by
  constructor
  · intro st call
    cases call <;> rfl
  · intro cs
    induction cs with
    | nil =>
        intro st c h
        simp [List.getLast?] at h
    | cons a l ih =>
        intro st c h
        cases l with
        | nil =>
            simp only [List.getLast?_singleton, Option.some.injEq] at h
            subst h
            cases a <;> rfl
        | cons a2 l2 =>
            rw [List.foldl_cons]
            exact ih (applyAlterCall st a) c (by rw [← List.getLast?_cons_cons]; exact h)

/-- Claim C9 witness: two successive calls; the second (`drop_column`)
wins. -/
theorem c9_alter_option_last_call_wins_witness :
    [AlterCall.add exCd1, AlterCall.drop "x"].getLast? = some (AlterCall.drop "x") ∧
    (([AlterCall.add exCd1, AlterCall.drop "x"].foldl applyAlterCall
        TableAlterStatement.new).alter_option = some (.dropColumn "x")) :=
  ⟨rfl, c9_alter_option_last_call_wins.2 [AlterCall.add exCd1, AlterCall.drop "x"]
    TableAlterStatement.new (AlterCall.drop "x") rfl⟩

/-- Claim C10: `UpdateStatement::returning` sets the returning list to
exactly the select expressions of its argument, a second call discards the
first (the whole statements agree), and the table, values, where holder,
orders and limit fields are unchanged. -/
theorem c10_returning_sets_and_frames :
    ∀ (u : UpdateStatement) (s s2 : SelectStatement),
      (u.setReturning s).returning = s.selects ∧
      (u.setReturning s).setReturning s2 = u.setReturning s2 ∧
      (u.setReturning s).table = u.table ∧
      (u.setReturning s).values = u.values ∧
      (u.setReturning s).wherei = u.wherei ∧
      (u.setReturning s).orders = u.orders ∧
      (u.setReturning s).limit = u.limit :=
  fun _ _ _ => ⟨rfl, rfl, rfl, rfl, rfl, rfl, rfl⟩

/-- Claim C4 counterexample: in the chain `or_where(x)` then `and_where(y)`
— the shape whose panic test select_34b fixes (there via
`or_having`/`and_having`) — every call after the first uses a single
operator kind (only AND), so the claim as stated asserts that rendering
succeeds and joins the expressions with AND; rendering instead panics. -/
theorem c4_counterexample_or_then_and :
    exMix2.wherei = .chain [.orOper (eqInt "aspect" 2), .andOper (eqInt "aspect" 22)] ∧
    sameKindAll [LogicalChainOper.andOper (eqInt "aspect" 22)] = true ∧
    selectToString .mysql exMix2 = .error chainMixMsg ∧
    selectBuildCollect .mysql exMix2 = .error chainMixMsg :=
  ⟨rfl, rfl, rfl, rfl⟩

/-- Claim C4 (amended): for a statement using the legacy linear where
chain, rendering succeeds — emitting the keyword and the entries joined
left-associatively, each non-initial entry preceded by its own operator,
which under uniformity is the single shared kind — exactly when all calls
including the first use a single operator kind; whenever the calls mix the
two kinds, rendering panics. -/
theorem c4_amended_uniform_chain :
    (∀ (b : Backend) (kw : String) (c0 : LogicalChainOper)
        (rest : List LogicalChainOper),
        sameKindAll (c0 :: rest) = true →
        holderChunks b kw (.chain (c0 :: rest)) =
          .ok ([Chunk.str (" " ++ kw ++ " ")] ++ chainJoinChunks b (c0 :: rest)) ∧
        ∀ d ∈ rest, chainKind d = chainKind c0) ∧
    (∀ (b : Backend) (s : SelectStatement) (cs : List LogicalChainOper),
        s.wherei = .chain cs → sameKindAll cs = false →
        selectToString b s = .error chainMixMsg ∧
        selectBuildCollect b s = .error chainMixMsg) := by
  constructor
  · intro b kw c0 rest h
    constructor
    · simp [holderChunks, chainChunks, h, Except.map]
    · intro d hd
      have h' : ∀ x ∈ rest, chainKind x = chainKind c0 := by
        simpa [sameKindAll] using h
      exact h' d hd
  · intro b s cs hs hmix
    have hch : holderChunks b "WHERE" s.wherei = .error chainMixMsg := by
      rw [hs]
      cases cs with
      | nil => simp [sameKindAll] at hmix
      | cons c rest => simp [holderChunks, chainChunks, hmix, Except.map]
    constructor
    · rw [selectToString, selectChunks, hch]
      rfl
    · rw [selectBuildCollect, selectChunks, hch]
      rfl

/-- Claim C4 witness: a uniform two-entry AND chain renders joined, and the
mixed chain of test select_29 panics. -/
theorem c4_amended_uniform_chain_witness :
    sameKindAll [LogicalChainOper.andOper (eqInt "size_w" 3),
      LogicalChainOper.andOper (eqInt "size_h" 4)] = true ∧
    holderChunks .mysql "WHERE"
        (.chain [LogicalChainOper.andOper (eqInt "size_w" 3),
          LogicalChainOper.andOper (eqInt "size_h" 4)]) =
      .ok ([Chunk.str (" " ++ "WHERE" ++ " ")]
        ++ chainJoinChunks .mysql [LogicalChainOper.andOper (eqInt "size_w" 3),
          LogicalChainOper.andOper (eqInt "size_h" 4)]) ∧
    exSel29.wherei = .chain exMixChain ∧
    sameKindAll exMixChain = false ∧
    selectToString .mysql exSel29 = .error chainMixMsg :=
  ⟨rfl,
   (c4_amended_uniform_chain.1 .mysql "WHERE"
      (LogicalChainOper.andOper (eqInt "size_w" 3))
      [LogicalChainOper.andOper (eqInt "size_h" 4)] rfl).1,
   rfl, rfl,
   (c4_amended_uniform_chain.2 .mysql exSel29 exMixChain rfl rfl).1⟩

/-- Claim C5: a where condition that is an ALL/ANY node all of whose
descendants are empty ALL/ANY nodes renders exactly like an absent where
clause — no WHERE token is emitted (the holder contributes no chunks) —
and, inside any node, an empty nested condition contributes nothing beside
its siblings, so emptiness propagates upward to the root. -/
theorem c5_empty_condition_omits_where :
    (∀ (b : Backend) (s : SelectStatement) (c : Cnd),
        allEmptyT c.children = true →
        selectChunks b { s with wherei := .condition c } =
          selectChunks b { s with wherei := .empty } ∧
        holderChunks b "WHERE" (.condition c) = .ok []) ∧
    (∀ (b : Backend) (glue : String) (multi first : Bool) (t2 : CondType)
        (n2 : Bool) (ch rest : CndT),
        allEmptyT ch = true →
        walkItems b glue multi first (.consNode t2 n2 ch rest) =
          walkItems b glue multi first rest) ∧
    (∀ (b : Backend) (t : CondType) (n : Bool) (t2 : CondType) (n2 : Bool)
        (ch rest : CndT),
        allEmptyT ch = true →
        cndChunks b ⟨t, n, .consNode t2 n2 ch rest⟩ = cndChunks b ⟨t, n, rest⟩) := by
  have hwalk : ∀ (b : Backend) (glue : String) (multi first : Bool)
      (t2 : CondType) (n2 : Bool) (ch rest : CndT),
      allEmptyT ch = true →
      walkItems b glue multi first (.consNode t2 n2 ch rest) =
        walkItems b glue multi first rest := by
    intro b glue multi first t2 n2 ch rest h
    rw [walkItems]
    simp [h]
  refine ⟨?_, hwalk, ?_⟩
  · intro b s c h
    have h1 : holderChunks b "WHERE" (.condition c) = .ok [] := by
      simp [holderChunks, h]
    exact ⟨by simp [selectChunks, holderChunks, h], h1⟩
  · intro b t n t2 n2 ch rest h
    simp [cndChunks, countNonEmpty, h, hwalk]

/-- Claim C5 witness: the condition of test select_37 (an ANY of two empty
nodes) renders with no WHERE token. -/
theorem c5_empty_condition_omits_where_witness :
    allEmptyT exCndEmpty.children = true ∧
    selectChunks .mysql { exSelBase with wherei := .condition exCndEmpty } =
      selectChunks .mysql { exSelBase with wherei := .empty } ∧
    holderChunks .mysql "WHERE" (.condition exCndEmpty) = .ok [] :=
  ⟨rfl, (c5_empty_condition_omits_where.1 .mysql exSelBase exCndEmpty rfl).1,
   (c5_empty_condition_omits_where.1 .mysql exSelBase exCndEmpty rfl).2⟩

/-- Claim C6: an order-by entry carrying a null-ordering option renders
under MySQL and SQLite as two sort keys — first `<expr> IS NULL` directed
DESC for NULLS FIRST and ASC for NULLS LAST, then `<expr>` with the
requested direction — while Postgres renders a single key with native
`NULLS FIRST|LAST`. -/
theorem c6_null_ordering_two_sort_keys :
    ∀ (e : SimpleExpr) (d : SqlOrder) (no : NullOrdering),
      orderExprChunks .mysql ⟨e, d, some no⟩ =
        exprChunks .mysql e ++ [Chunk.str (" IS NULL " ++ nullsDirStr no ++ ", ")]
          ++ exprChunks .mysql e ++ [Chunk.str (" " ++ dirStr d)] ∧
      orderExprChunks .sqlite ⟨e, d, some no⟩ =
        exprChunks .sqlite e ++ [Chunk.str (" IS NULL " ++ nullsDirStr no ++ ", ")]
          ++ exprChunks .sqlite e ++ [Chunk.str (" " ++ dirStr d)] ∧
      orderExprChunks .postgres ⟨e, d, some no⟩ =
        exprChunks .postgres e
          ++ [Chunk.str (" " ++ dirStr d ++ " NULLS " ++ nullsKeyword no)] ∧
      nullsDirStr .first = "DESC" ∧ nullsDirStr .last = "ASC" ∧
      nullsKeyword .first = "FIRST" ∧ nullsKeyword .last = "LAST" :=
  fun _ _ _ => ⟨rfl, rfl, rfl, rfl, rfl, rfl, rfl⟩

/-- Claim C7: for every single expression `x`, every backend and every
otherwise-arbitrary select statement, a where clause set through the
condition tree as `Cond::all().add(x)` — and likewise `Cond::any().add(x)`
— renders to exactly the same SQL string and the same collected value
sequence as the legacy `and_where(x)`. -/
theorem c7_cond_single_leaf_equals_and_where :
    ∀ (b : Backend) (s : SelectStatement) (x : SimpleExpr),
      (selectToString b { s with wherei := .chain [.andOper x] } =
          selectToString b { s with wherei := .condition ⟨.all, false, .consExpr x .nil⟩ } ∧
        selectBuildCollect b { s with wherei := .chain [.andOper x] } =
          selectBuildCollect b { s with wherei := .condition ⟨.all, false, .consExpr x .nil⟩ }) ∧
      (selectToString b { s with wherei := .chain [.andOper x] } =
          selectToString b { s with wherei := .condition ⟨.any, false, .consExpr x .nil⟩ } ∧
        selectBuildCollect b { s with wherei := .chain [.andOper x] } =
          selectBuildCollect b { s with wherei := .condition ⟨.any, false, .consExpr x .nil⟩ }) := by
  intro b s x
  have hh : ∀ t : CondType,
      holderChunks b "WHERE" (.chain [.andOper x]) =
        holderChunks b "WHERE" (.condition ⟨t, false, .consExpr x .nil⟩) := by
    intro t
    simp [holderChunks, chainChunks, sameKindAll, chainJoinChunks, chainItemChunks,
      chainRestChunks, chainExpr, cndChunks, walkItems, countNonEmpty, allEmptyT,
      Except.map]
  have hsel : ∀ t : CondType,
      selectChunks b { s with wherei := .chain [.andOper x] } =
        selectChunks b { s with wherei := .condition ⟨t, false, .consExpr x .nil⟩ } := by
    intro t
    simp [selectChunks, hh t]
  exact ⟨⟨by rw [selectToString, selectToString, hsel .all],
          by rw [selectBuildCollect, selectBuildCollect, hsel .all]⟩,
         ⟨by rw [selectToString, selectToString, hsel .any],
          by rw [selectBuildCollect, selectBuildCollect, hsel .any]⟩⟩

end SeaQuery
